import Mathlib

/-!
Shallow embedding of the booking / payment / cancellation / sweep core of the
camping-backend service (Express + MySQL).  The definitions below translate,
table by table and route by route, the code in

  * `src/routes/bookings.js`      — `POST /` (create booking), `PATCH /:id/cancel`
  * `src/routes/payments.js`      — `POST /webhook/stripe` (succeeded / failed upserts)
  * `src/scheduled-tasks/updateBookingStatus.js` — the status sweeper

Dates are modelled as day numbers (`Nat`); the JS code stores `YYYY-MM-DD`
strings, so whole days are exact and `Math.ceil((e-s)/86400000) = e - s`.
Money is modelled as `ℚ` (the JS code uses IEEE floats, but every amount the
claims touch is exact in both).  The MySQL tables become lists of rows; the
`UNIQUE` key on `Payments.stripe_payment_intent_id` (relied upon by the
webhook's `ON DUPLICATE KEY UPDATE`) is modelled by making a plain `INSERT`
fail — with the enclosing transaction rolled back — whenever a row with the
same intent id already exists.
-/

namespace Camping

/-- Booking status names from the `Status` table (`pending`, `confirmed`,
`completed`, `cancelled`). -/
inductive BStatus
  | pending
  | confirmed
  | completed
  | cancelled
  deriving DecidableEq, Repr

/-- Payment row status (`succeeded` / `failed` / `refunded`). -/
inductive PStatus
  | succeeded
  | failed
  | refunded
  deriving DecidableEq, Repr

/-- Row of `Locations` (the columns read by the booking core). -/
structure Location where
  location_id : Nat
  owner_id : Nat
  price_per_night : ℚ
  deriving DecidableEq, Repr

/-- Row of `Bookings` (the columns read or written by the booking core). -/
structure Booking where
  booking_id : Nat
  location_id : Nat
  user_id : Nat
  start_date : Nat
  end_date : Nat
  status : BStatus
  total_price : ℚ
  stripe_payment_intent_id : Option String
  deriving DecidableEq, Repr

/-- Row of `Payments`. -/
structure Payment where
  payment_id : Nat
  booking_id : Option Nat
  stripe_payment_intent_id : String
  amount : ℚ
  currency : String
  status : PStatus
  deriving DecidableEq, Repr

/-- Row of `locationunavailabilities` (owner blackout windows). -/
structure Unavailability where
  location_id : Nat
  start_date : Nat
  end_date : Nat
  deriving DecidableEq, Repr

/-- The durable store: the four tables plus the two auto-increment counters. -/
structure DB where
  locations : List Location
  bookings : List Booking
  payments : List Payment
  unavailabilities : List Unavailability
  nextBookingId : Nat
  nextPaymentId : Nat
  deriving DecidableEq, Repr

/-- The error outcomes of `POST /bookings` in `src/routes/bookings.js`. -/
inductive BErr
  | invalidServiceFee      -- 400 "Invalid service fee"
  | pastStart              -- 400 "Start date cannot be in the past"
  | invalidRange           -- 400 "End date must be after start date"
  | locationNotFound       -- 404 "Location not found"
  | selfBooking            -- 403 "You cannot book your own location."
  | unavailConflict        -- 409 unavailability conflict
  | paymentInsertError     -- 500, the Payments INSERT raised and rolled back
  deriving DecidableEq, Repr

/-- Request body of `POST /bookings` (plus the authenticated user id).
`total_price = some t` models a truthy client-supplied total; `none` models an
absent one (in which case the route computes `subtotal + service_fee`). -/
structure CreateReq where
  location_id : Nat
  start_date : Nat
  end_date : Nat
  total_price : Option ℚ
  stripe_payment_intent_id : Option String
  service_fee : ℚ
  user_id : Nat
  deriving Repr

/-- Result of `POST /bookings`. -/
inductive CreateRes
  | created (booking_id : Nat) (total_price : ℚ) (nights : Nat)
  | failed (e : BErr)
  deriving DecidableEq, Repr

/-- The validation / lookup / pricing phase of `POST /bookings`
(`src/routes/bookings.js` lines 70–126): service-fee check, past-date check,
range check, location lookup, self-booking check, then
`nights = end - start`, `subtotal = nights * price_per_night`, and
`finalTotalPrice = total_price ? parseFloat(total_price) : subtotal + fee`. -/
def validateAndPrice (locs : List Location) (req : CreateReq) (today : Nat) :
    Except BErr (Location × ℚ × Nat) :=
  if req.service_fee < 0 then .error .invalidServiceFee
  else if req.start_date < today then .error .pastStart
  else if req.end_date ≤ req.start_date then .error .invalidRange
  else
    match locs.find? (fun l => l.location_id == req.location_id) with
    | none => .error .locationNotFound
    | some loc =>
      if loc.owner_id == req.user_id then .error .selfBooking
      else
        let nights := req.end_date - req.start_date
        let subtotal := (nights : ℚ) * loc.price_per_night
        let finalTotal :=
          match req.total_price with
          | some t => t
          | none => subtotal + req.service_fee
        .ok (loc, finalTotal, nights)

/-- The "simplified conflict check for owner unavailability"
(`src/routes/bookings.js` lines 156–172):
`WHERE location_id = ? AND start_date <= reqEnd AND end_date >= reqStart`.
Note the comparisons are inclusive, and no check against existing bookings is
performed (that query is commented out in the source). -/
def hasUnavailConflict (unavs : List Unavailability) (locId s e : Nat) : Bool :=
  unavs.any fun w =>
    w.location_id == locId && decide (w.start_date ≤ e) && decide (s ≤ w.end_date)

/-- `POST /bookings` (`src/routes/bookings.js` lines 62–232): validate, check
unavailability windows, insert the Booking row with status `confirmed`, and —
when a `stripe_payment_intent_id` is supplied — run a plain
`INSERT INTO Payments`; if a Payments row with that intent id already exists
the INSERT violates the unique key, the error is caught, and the whole
transaction (booking included) is rolled back. -/
def createBooking (db : DB) (req : CreateReq) (today : Nat) : CreateRes × DB :=
  match validateAndPrice db.locations req today with
  | .error e => (.failed e, db)
  | .ok (_, finalTotal, nights) =>
    if hasUnavailConflict db.unavailabilities req.location_id req.start_date req.end_date then
      (.failed .unavailConflict, db)
    else
      let bid := db.nextBookingId
      let newB : Booking :=
        { booking_id := bid, location_id := req.location_id, user_id := req.user_id
          start_date := req.start_date, end_date := req.end_date
          status := .confirmed, total_price := finalTotal
          stripe_payment_intent_id := req.stripe_payment_intent_id }
      match req.stripe_payment_intent_id with
      | none =>
        (.created bid finalTotal nights,
         { db with bookings := db.bookings ++ [newB], nextBookingId := bid + 1 })
      | some intent =>
        if db.payments.any (fun p => p.stripe_payment_intent_id == intent) then
          (.failed .paymentInsertError, db)
        else
          let newP : Payment :=
            { payment_id := db.nextPaymentId, booking_id := some bid
              stripe_payment_intent_id := intent, amount := finalTotal
              currency := "eur", status := .succeeded }
          (.created bid finalTotal nights,
           { db with bookings := db.bookings ++ [newB]
                     payments := db.payments ++ [newP]
                     nextBookingId := bid + 1
                     nextPaymentId := db.nextPaymentId + 1 })

/-- The webhook's booking lookup
(`SELECT booking_id FROM Bookings WHERE stripe_payment_intent_id = ?`,
first row taken if any). -/
def lookupBookingByIntent (bookings : List Booking) (intent : String) : Option Nat :=
  (bookings.find? (fun b => b.stripe_payment_intent_id == some intent)).map (·.booking_id)

/-- `INSERT INTO Payments ... ON DUPLICATE KEY UPDATE status = <st>,
amount = VALUES(amount), currency = VALUES(currency),
booking_id = IFNULL(Payments.booking_id, VALUES(booking_id))`
(`src/routes/payments.js`, `upsertSucceededQuery` / `upsertFailedQuery`, which
differ only in the status literal).  The unique key is
`stripe_payment_intent_id`; `assoc` is the inserted `booking_id` value.
Returns the new table and the new auto-increment counter. -/
def upsertPaymentRow (payments : List Payment) (assoc : Option Nat) (npid : Nat)
    (intent : String) (amt : ℚ) (cur : String) (st : PStatus) : List Payment × Nat :=
  if payments.any (fun p => p.stripe_payment_intent_id == intent) then
    (payments.map fun p =>
      if p.stripe_payment_intent_id == intent then
        { p with status := st, amount := amt, currency := cur
                 booking_id := p.booking_id.orElse (fun _ => assoc) }
      else p,
     npid)
  else
    (payments ++ [{ payment_id := npid, booking_id := assoc
                    stripe_payment_intent_id := intent, amount := amt
                    currency := cur, status := st }],
     npid + 1)

/-- One `POST /webhook/stripe` event (`payment_intent.succeeded` when
`st = .succeeded`, `payment_intent.payment_failed` when `st = .failed`):
look up the booking by intent id, then run the keyed upsert. -/
def handlePaymentEvent (db : DB) (intent : String) (amt : ℚ) (cur : String)
    (st : PStatus) : DB :=
  let assoc := lookupBookingByIntent db.bookings intent
  let r := upsertPaymentRow db.payments assoc db.nextPaymentId intent amt cur st
  { db with payments := r.1, nextPaymentId := r.2 }

/-- The `payment_intent.succeeded` branch of `POST /webhook/stripe`
(`src/routes/payments.js` lines 67–114). -/
def handleIntentSucceeded (db : DB) (intent : String) (amt : ℚ) (cur : String) : DB :=
  handlePaymentEvent db intent amt cur .succeeded

/-- The `payment_intent.payment_failed` branch of `POST /webhook/stripe`
(`src/routes/payments.js` lines 116–161). -/
def handleIntentFailed (db : DB) (intent : String) (amt : ℚ) (cur : String) : DB :=
  handlePaymentEvent db intent amt cur .failed

/-- Refund outcome reported by `PATCH /:id/cancel` (`refund_info`). -/
inductive RefundInfo
  | notAttempted
  | refundOk
  | refundFailed (reason : String)
  deriving DecidableEq, Repr

/-- Result of `PATCH /:id/cancel`. -/
inductive CancelRes
  | notFound                       -- 404
  | alreadyFinalized (st : BStatus) -- 400 "Booking is already <status>"
  | forbidden                      -- 403
  | cancelledOk (r : RefundInfo)   -- 200
  deriving DecidableEq, Repr

/-- `SELECT ... FROM Bookings WHERE booking_id = ?` (first row). -/
def findBooking (bs : List Booking) (bid : Nat) : Option Booking :=
  bs.find? (fun b => b.booking_id == bid)

/-- `UPDATE Bookings SET status_id = <st> WHERE booking_id = ?`. -/
def setBookingStatus (bs : List Booking) (bid : Nat) (st : BStatus) : List Booking :=
  bs.map fun b => if b.booking_id == bid then { b with status := st } else b

/-- `UPDATE Payments SET status = <st> WHERE stripe_payment_intent_id = ?`. -/
def setPaymentStatusByIntent (ps : List Payment) (intent : String) (st : PStatus) :
    List Payment :=
  ps.map fun p => if p.stripe_payment_intent_id == intent then { p with status := st } else p

/-- The owner check of the cancel route: look up the booking's location and
compare its `user_id` with the requester. -/
def isOwnerOf (locs : List Location) (locId uid : Nat) : Bool :=
  match locs.find? (fun l => l.location_id == locId) with
  | some l => l.owner_id == uid
  | none => false

/-- `PATCH /:id/cancel` (`src/routes/bookings.js` lines 235–339): fetch the
booking (404 if absent); reject if its status is already `completed` or
`cancelled`; authorize renter or location owner; update the status to
`cancelled`; then, if the booking carries a payment intent and was
`confirmed`, call the Stripe refund gateway — on success also set the Payment
row to `refunded`, on failure keep the cancellation and report the reason.
`gateway` models `stripe.refunds.create`; the third component of the result
lists the intent ids on which the gateway was invoked. -/
def cancelBooking (db : DB) (bid uid : Nat) (gateway : String → Except String Unit) :
    CancelRes × DB × List String :=
  match findBooking db.bookings bid with
  | none => (.notFound, db, [])
  | some b =>
    if b.status == .completed || b.status == .cancelled then
      (.alreadyFinalized b.status, db, [])
    else if b.user_id == uid || isOwnerOf db.locations b.location_id uid then
      let bs := setBookingStatus db.bookings bid .cancelled
      match b.stripe_payment_intent_id with
      | some intent =>
        if b.status == .confirmed then
          match gateway intent with
          | .ok _ =>
            (.cancelledOk .refundOk,
             { db with bookings := bs
                       payments := setPaymentStatusByIntent db.payments intent .refunded },
             [intent])
          | .error reason =>
            (.cancelledOk (.refundFailed reason), { db with bookings := bs }, [intent])
        else
          (.cancelledOk .notAttempted, { db with bookings := bs }, [])
      | none => (.cancelledOk .notAttempted, { db with bookings := bs }, [])
    else
      (.forbidden, db, [])

/-- The sweeper's eligibility query
(`SELECT booking_id FROM Bookings WHERE end_date < ? AND status_id = ?` with
today's date and the `confirmed` status id,
`src/scheduled-tasks/updateBookingStatus.js` lines 20–23). -/
def eligibleIds (bs : List Booking) (today : Nat) : List Nat :=
  (bs.filter fun b => decide (b.end_date < today) && (b.status == .confirmed)).map
    (·.booking_id)

/-- The sweeper's update loop body applied to a list of booking ids
(each id gets `UPDATE Bookings SET status_id = completed WHERE booking_id = ?`). -/
def applyCompletedUpdates (bs : List Booking) (ids : List Nat) : List Booking :=
  ids.foldl (fun acc i => setBookingStatus acc i .completed) bs

/-- `updatePastBookingsToCompleted` (`src/scheduled-tasks/updateBookingStatus.js`):
select the confirmed bookings that ended before today and update each to
`completed`; also returns `updatedCount`. -/
def runStatusSweep (db : DB) (today : Nat) : DB × Nat :=
  let ids := eligibleIds db.bookings today
  ({ db with bookings := applyCompletedUpdates db.bookings ids }, ids.length)

/-- The sweeper's `for` loop with a fallible per-row `UPDATE`: `fails i = true`
models the update query for booking `i` throwing.  The loop body has no
per-row `try/catch`, so the first throw exits the loop (the error is caught by
the function-level handler); the third component records whether that
happened.  Mirrors lines 32–44 of
`src/scheduled-tasks/updateBookingStatus.js`. -/
def sweepLoop (bs : List Booking) (ids : List Nat) (fails : Nat → Bool) (count : Nat) :
    List Booking × Nat × Bool :=
  match ids with
  | [] => (bs, count, false)
  | i :: rest =>
    if fails i then (bs, count, true)
    else sweepLoop (setBookingStatus bs i .completed) rest fails (count + 1)

/-- `updatePastBookingsToCompleted` with a fallible per-row update. -/
def runStatusSweepFallible (db : DB) (today : Nat) (fails : Nat → Bool) :
    DB × Nat × Bool :=
  let r := sweepLoop db.bookings (eligibleIds db.bookings today) fails 0
  ({ db with bookings := r.1 }, r.2.1, r.2.2)

/-- The half-open overlap predicate of the specification:
`[s1,e1)` and `[s2,e2)` overlap iff `s1 < e2 AND s2 < e1`.  (Stated from the
spec only to express the claims about boundary behaviour; the route itself
uses `hasUnavailConflict` above.) -/
def halfOpenOverlap (s1 e1 s2 e2 : Nat) : Bool :=
  decide (s1 < e2) && decide (s2 < e1)

/-! ### C1 — overlap against existing bookings -/

/-- A store holding one confirmed booking of location 1 over days `[10,12)`. -/
def c1db : DB :=
  { locations := [{ location_id := 1, owner_id := 7, price_per_night := 0 }]
    bookings := [{ booking_id := 1, location_id := 1, user_id := 2, start_date := 10
                   end_date := 12, status := .confirmed, total_price := 0
                   stripe_payment_intent_id := none }]
    payments := [], unavailabilities := [], nextBookingId := 2, nextPaymentId := 1 }

/-- A request for the overlapping range `[11,13)` on the same location. -/
def c1req : CreateReq :=
  { location_id := 1, start_date := 11, end_date := 13, total_price := none
    stripe_payment_intent_id := none, service_fee := 0, user_id := 3 }

/-- The booking row `c1req` persists. -/
def c1newBooking : Booking :=
  { booking_id := 2, location_id := 1, user_id := 3, start_date := 11, end_date := 13
    status := .confirmed, total_price := 0, stripe_payment_intent_id := none }

/-- C1: refuted on the code.  `POST /bookings` checks only the
`locationunavailabilities` table (the conflict query against existing bookings
is commented out), so a request whose range overlaps an existing confirmed
booking of the same location is accepted, and the store ends with two
non-cancelled bookings of one location whose half-open ranges overlap. -/
theorem c1_overlapping_booking_accepted :
    (createBooking c1db c1req 10).1 = .created 2 0 2 ∧
    (createBooking c1db c1req 10).2.bookings = c1db.bookings ++ [c1newBooking] ∧
    ∀ b1 ∈ c1db.bookings,
      b1.status ≠ .cancelled ∧ c1newBooking.status ≠ .cancelled ∧
      b1.location_id = c1newBooking.location_id ∧
      halfOpenOverlap b1.start_date b1.end_date c1newBooking.start_date
        c1newBooking.end_date = true := by
  refine ⟨?_, ?_, ?_⟩
  · simp [createBooking, validateAndPrice, hasUnavailConflict, c1db, c1req]
  · simp [createBooking, validateAndPrice, hasUnavailConflict, c1db, c1req, c1newBooking]
  · decide

/-! ### C4 — boundary behaviour of the conflict check -/

/-- A store whose location 1 has an owner blackout window `[1,5]`. -/
def c4db : DB :=
  { locations := [{ location_id := 1, owner_id := 7, price_per_night := 0 }]
    bookings := [], payments := []
    unavailabilities := [{ location_id := 1, start_date := 1, end_date := 5 }]
    nextBookingId := 1, nextPaymentId := 1 }

/-- A request starting exactly on the window's end date. -/
def c4req : CreateReq :=
  { location_id := 1, start_date := 5, end_date := 7, total_price := none
    stripe_payment_intent_id := none, service_fee := 0, user_id := 3 }

/-- C4 counterexample: the claim is false on the code.  The request `[5,7)`
does not overlap the window `[1,5)` under the half-open rule
(`NOT (1 < 7 AND 5 < 5)`), yet `POST /bookings` rejects it with the
unavailability conflict error, because the SQL comparison
`start_date <= reqEnd AND end_date >= reqStart` is boundary-inclusive. -/
theorem c4_boundary_touch_rejected :
    halfOpenOverlap 1 5 5 7 = false ∧
    (createBooking c4db c4req 1).1 = .failed .unavailConflict := by
  refine ⟨by decide, ?_⟩
  simp [createBooking, validateAndPrice, hasUnavailConflict, c4db, c4req]

/-- C4 (amended behaviour): once the validation phase passes, `POST /bookings`
returns the unavailability conflict error exactly when some blackout window of
the location satisfies the boundary-inclusive condition
`w.start_date ≤ req.end_date AND w.end_date ≥ req.start_date` (closed
intervals — so a request that merely touches a window boundary is rejected),
and the contents of the Bookings table play no part in acceptance: the route's
outcome is identical for any bookings list. -/
theorem c4_conflict_iff_closed_overlap (db : DB) (req : CreateReq) (today : Nat)
    (x : Location × ℚ × Nat)
    (hv : validateAndPrice db.locations req today = .ok x) :
    ((createBooking db req today).1 = .failed .unavailConflict ↔
      ∃ w ∈ db.unavailabilities, w.location_id = req.location_id ∧
        w.start_date ≤ req.end_date ∧ req.start_date ≤ w.end_date) ∧
    ∀ bs : List Booking,
      (createBooking { db with bookings := bs } req today).1 =
        (createBooking db req today).1 := by
  obtain ⟨loc, tp, n⟩ := x
  have key : ∀ bs : List Booking,
      (createBooking { db with bookings := bs } req today).1 =
      (if hasUnavailConflict db.unavailabilities req.location_id req.start_date
          req.end_date
       then CreateRes.failed .unavailConflict
       else match req.stripe_payment_intent_id with
            | none => .created db.nextBookingId tp n
            | some intent =>
              if db.payments.any (fun p => p.stripe_payment_intent_id == intent)
              then .failed .paymentInsertError
              else .created db.nextBookingId tp n) := by
    intro bs
    have hv' : validateAndPrice ({ db with bookings := bs } : DB).locations req
        today = .ok (loc, tp, n) := hv
    cases hcf : hasUnavailConflict db.unavailabilities req.location_id
        req.start_date req.end_date with
    | true => simp [createBooking, hv', hcf]
    | false =>
      cases hpi : req.stripe_payment_intent_id with
      | none => simp [createBooking, hv', hcf, hpi]
      | some intent =>
        cases hpay : db.payments.any
            (fun p => p.stripe_payment_intent_id == intent) with
        | true => simp [createBooking, hv', hcf, hpi, hpay]
        | false => simp [createBooking, hv', hcf, hpi, hpay]
  have h0 : (createBooking db req today).1 =
      (if hasUnavailConflict db.unavailabilities req.location_id req.start_date
          req.end_date
       then CreateRes.failed .unavailConflict
       else match req.stripe_payment_intent_id with
            | none => .created db.nextBookingId tp n
            | some intent =>
              if db.payments.any (fun p => p.stripe_payment_intent_id == intent)
              then .failed .paymentInsertError
              else .created db.nextBookingId tp n) := key db.bookings
  refine ⟨?_, fun bs => (key bs).trans h0.symm⟩
  rw [h0]
  constructor
  · intro h
    cases hcf : hasUnavailConflict db.unavailabilities req.location_id
        req.start_date req.end_date with
    | false =>
      exfalso
      rw [hcf] at h
      cases hpi : req.stripe_payment_intent_id with
      | none => simp [hpi] at h
      | some intent =>
        cases hpay : db.payments.any
            (fun p => p.stripe_payment_intent_id == intent) with
        | true => simp [hpi, hpay] at h
        | false => simp [hpi, hpay] at h
    | true =>
      unfold hasUnavailConflict at hcf
      rw [List.any_eq_true] at hcf
      obtain ⟨w, hw, hcond⟩ := hcf
      simp only [Bool.and_eq_true, decide_eq_true_eq, beq_iff_eq] at hcond
      exact ⟨w, hw, hcond.1.1, hcond.1.2, hcond.2⟩
  · rintro ⟨w, hw, h1, h2, h3⟩
    have hcf : hasUnavailConflict db.unavailabilities req.location_id
        req.start_date req.end_date = true := by
      unfold hasUnavailConflict
      rw [List.any_eq_true]
      exact ⟨w, hw, by simp [h1, h2, h3]⟩
    simp [hcf]

/-- C4 witness for the amended theorem: at the concrete store `c4db` (window
`[1,5]` on location 1) and boundary-touching request `c4req` (`[5,7)`), the
request is rejected with the unavailability conflict, and emptying the
Bookings table does not change the outcome. -/
theorem c4_conflict_iff_closed_overlap_witness :
    (createBooking c4db c4req 1).1 = .failed .unavailConflict ∧
    (createBooking { c4db with bookings := [] } c4req 1).1 =
      (createBooking c4db c4req 1).1 := by
  have h := c4_conflict_iff_closed_overlap c4db c4req 1
    ({ location_id := 1, owner_id := 7, price_per_night := 0 }, 0, 2)
    (by simp [validateAndPrice, c4db, c4req])
  exact ⟨h.1.mpr ⟨{ location_id := 1, start_date := 1, end_date := 5 },
    by simp [c4db], by simp [c4req], by simp [c4req], by simp [c4req]⟩, h.2 []⟩

/-! ### C5 — client-supplied total price -/

/-- A store with location 1 at 50 per night. -/
def c5db : DB :=
  { locations := [{ location_id := 1, owner_id := 7, price_per_night := 50 }]
    bookings := [], payments := [], unavailabilities := []
    nextBookingId := 1, nextPaymentId := 1 }

/-- A 2-night request carrying the client-supplied total price 1 (the
server-side value is `2 × 50 + 0 = 100`). -/
def c5req : CreateReq :=
  { location_id := 1, start_date := 10, end_date := 12, total_price := some 1
    stripe_payment_intent_id := none, service_fee := 0, user_id := 3 }

/-- The booking row `c5req` persists: total price 1, as sent by the client. -/
def c5booking : Booking :=
  { booking_id := 1, location_id := 1, user_id := 3, start_date := 10, end_date := 12
    status := .confirmed, total_price := 1, stripe_payment_intent_id := none }

/-- C5: the code trusts the client's total price.  The request with client
total 1 is accepted and persisted with `total_price = 1`, although the same
request without a client total is priced server-side at 100; the divergence
(99) exceeds any small tolerance, and no `PriceMismatch` rejection exists in
the code (the verification block is commented out). -/
theorem c5_client_price_trusted :
    (createBooking c5db c5req 10).1 = .created 1 1 2 ∧
    (createBooking c5db c5req 10).2.bookings = [c5booking] ∧
    (createBooking c5db { c5req with total_price := none } 10).1 = .created 1 100 2 ∧
    |(1 : ℚ) - 100| > 1 / 100 := by
  refine ⟨?_, ?_, ?_, by norm_num⟩
  · simp [createBooking, validateAndPrice, hasUnavailConflict, c5db, c5req]
  · simp [createBooking, validateAndPrice, hasUnavailConflict, c5db, c5req, c5booking]
  · norm_num [createBooking, validateAndPrice, hasUnavailConflict, c5db, c5req]

/-! ### C9 — row-level failure during the sweep -/

/-- Two confirmed bookings, both ended before day 10 (both sweep-eligible). -/
def c9db : DB :=
  { locations := [], payments := [], unavailabilities := []
    bookings := [{ booking_id := 1, location_id := 1, user_id := 2, start_date := 3
                   end_date := 5, status := .confirmed, total_price := 0
                   stripe_payment_intent_id := none },
                 { booking_id := 2, location_id := 1, user_id := 4, start_date := 3
                   end_date := 6, status := .confirmed, total_price := 0
                   stripe_payment_intent_id := none }]
    nextBookingId := 3, nextPaymentId := 1 }

/-- C9 counterexample: the claim is false on the code.  Both bookings are
eligible; the update of booking 1 throws, and because the loop body has no
per-row `try/catch`, booking 2 — which comes after it — is left `confirmed`
(its update never runs), and the loop is recorded as aborted. -/
theorem c9_row_failure_skips_rest :
    ((runStatusSweepFallible c9db 10 (fun i => i == 1)).1.bookings.map (·.status)) =
      [.confirmed, .confirmed] ∧
    (runStatusSweepFallible c9db 10 (fun i => i == 1)).2.2 = true := by
  refine ⟨?_, ?_⟩ <;>
    simp [runStatusSweepFallible, sweepLoop, eligibleIds, c9db]

/-! ### C3 — replaying a payment event -/

/-- `Option.orElse` with a constant alternative is idempotent. -/
theorem orElse_const_idem (o a : Option Nat) :
    ((o.orElse fun _ => a).orElse fun _ => a) = o.orElse fun _ => a := by
  cases o <;> cases a <;> rfl

/-- `Option.orElse` with itself as the alternative changes nothing. -/
theorem orElse_const_self (a : Option Nat) : (a.orElse fun _ => a) = a := by
  cases a <;> rfl

/-- The upsert in its update branch (a row for the intent id exists): the SQL
`ON DUPLICATE KEY UPDATE` rewrites the matching rows in place and allocates
no id. -/
theorem upsertPaymentRow_of_any (ps : List Payment) (assoc : Option Nat) (npid : Nat)
    (I : String) (amt : ℚ) (cur : String) (st : PStatus)
    (h : ps.any (fun p => p.stripe_payment_intent_id == I) = true) :
    upsertPaymentRow ps assoc npid I amt cur st =
      (ps.map fun p =>
        if p.stripe_payment_intent_id == I then
          { p with status := st, amount := amt, currency := cur
                   booking_id := p.booking_id.orElse (fun _ => assoc) }
        else p,
       npid) := by
  unfold upsertPaymentRow
  rw [if_pos h]

/-- After the webhook upsert, a row for the event's intent id exists. -/
theorem upsertPaymentRow_any (ps : List Payment) (assoc : Option Nat) (npid : Nat)
    (I : String) (amt : ℚ) (cur : String) (st : PStatus) :
    (upsertPaymentRow ps assoc npid I amt cur st).1.any
      (fun p => p.stripe_payment_intent_id == I) = true := by
  unfold upsertPaymentRow
  split
  · next h =>
    rw [List.any_eq_true] at h ⊢
    obtain ⟨q, hq, hqI⟩ := h
    refine ⟨_, List.mem_map_of_mem _ hq, ?_⟩
    simp only [beq_iff_eq] at hqI
    simp [hqI]
  · simp

/-- After the webhook upsert, every row for the event's intent id carries the
event's status, amount and currency, and its `booking_id` is a fixed point of
the `IFNULL(booking_id, VALUES(booking_id))` absorption. -/
theorem upsertPaymentRow_fields (ps : List Payment) (assoc : Option Nat) (npid : Nat)
    (I : String) (amt : ℚ) (cur : String) (st : PStatus) :
    ∀ p ∈ (upsertPaymentRow ps assoc npid I amt cur st).1,
      p.stripe_payment_intent_id = I →
      p.status = st ∧ p.amount = amt ∧ p.currency = cur ∧
      (p.booking_id.orElse fun _ => assoc) = p.booking_id := by
  intro p hp hpI
  unfold upsertPaymentRow at hp
  split at hp
  · next h =>
    obtain ⟨q, hq, rfl⟩ := List.mem_map.mp hp
    by_cases hqI : q.stripe_payment_intent_id = I
    · refine ⟨?_, ?_, ?_, ?_⟩
      · simp [hqI]
      · simp [hqI]
      · simp [hqI]
      · simp only [hqI, beq_self_eq_true, if_true]
        exact orElse_const_idem _ _
    · rw [if_neg (by simpa using hqI)] at hpI
      exact absurd hpI hqI
  · next h =>
    rcases List.mem_append.mp hp with hps | hnew
    · exfalso
      rw [Bool.not_eq_true, List.any_eq_false] at h
      exact h p hps (by simp [hpI])
    · have hp' : p = { payment_id := npid, booking_id := assoc
                       stripe_payment_intent_id := I, amount := amt
                       currency := cur, status := st } := by simpa using hnew
      subst hp'
      exact ⟨rfl, rfl, rfl, orElse_const_self _⟩

/-- The upsert yields exactly one row for the event's intent id, provided the
unique key held before (at most one such row existed). -/
theorem upsertPaymentRow_count (ps : List Payment) (assoc : Option Nat) (npid : Nat)
    (I : String) (amt : ℚ) (cur : String) (st : PStatus)
    (huniq : (ps.filter (fun p => p.stripe_payment_intent_id == I)).length ≤ 1) :
    ((upsertPaymentRow ps assoc npid I amt cur st).1.filter
      (fun p => p.stripe_payment_intent_id == I)).length = 1 := by
  unfold upsertPaymentRow
  split
  · next h =>
    rw [List.filter_map, List.length_map]
    have hcong : List.filter
        ((fun p => p.stripe_payment_intent_id == I) ∘ fun p =>
          if p.stripe_payment_intent_id == I then
            { p with status := st, amount := amt, currency := cur
                     booking_id := p.booking_id.orElse (fun _ => assoc) }
          else p) ps =
        List.filter (fun p => p.stripe_payment_intent_id == I) ps := by
      refine List.filter_congr fun q _ => ?_
      by_cases hqI : q.stripe_payment_intent_id = I
      · simp [Function.comp, hqI]
      · simp [Function.comp, hqI]
    rw [hcong]
    rw [List.any_eq_true] at h
    obtain ⟨q, hq, hqI⟩ := h
    have hlen : 0 < (List.filter (fun p => p.stripe_payment_intent_id == I) ps).length :=
      List.length_pos.mpr (List.ne_nil_of_mem (List.mem_filter.mpr ⟨hq, hqI⟩))
    omega
  · next h =>
    rw [Bool.not_eq_true, List.any_eq_false] at h
    rw [List.filter_append, List.filter_eq_nil_iff.mpr h]
    simp

/-- A webhook event is a no-op on a store whose rows for the intent id
already carry the event's values (with the `IFNULL` absorption saturated). -/
theorem handlePaymentEvent_fixed (E : DB) (I : String) (amt : ℚ) (cur : String)
    (st : PStatus)
    (hany : E.payments.any (fun p => p.stripe_payment_intent_id == I) = true)
    (hfix : ∀ p ∈ E.payments, p.stripe_payment_intent_id = I →
      p.status = st ∧ p.amount = amt ∧ p.currency = cur ∧
      (p.booking_id.orElse fun _ => lookupBookingByIntent E.bookings I) = p.booking_id) :
    handlePaymentEvent E I amt cur st = E := by
  have hstep : handlePaymentEvent E I amt cur st =
      { E with
        payments := (upsertPaymentRow E.payments (lookupBookingByIntent E.bookings I)
          E.nextPaymentId I amt cur st).1
        nextPaymentId := (upsertPaymentRow E.payments
          (lookupBookingByIntent E.bookings I) E.nextPaymentId I amt cur st).2 } := rfl
  rw [hstep, upsertPaymentRow_of_any _ _ _ _ _ _ _ hany]
  have hmap : (E.payments.map fun p =>
      if p.stripe_payment_intent_id == I then
        { p with status := st, amount := amt, currency := cur
                 booking_id := p.booking_id.orElse
                   (fun _ => lookupBookingByIntent E.bookings I) }
      else p) = E.payments := by
    conv_rhs => rw [← List.map_id E.payments]
    refine List.map_congr_left fun p hp => ?_
    by_cases hpI : p.stripe_payment_intent_id = I
    · obtain ⟨h1, h2, h3, h4⟩ := hfix p hp hpI
      have hbeq : (p.stripe_payment_intent_id == I) = true := by simp [hpI]
      rw [if_pos hbeq, h4, ← h1, ← h2, ← h3]
      rfl
    · simp [hpI]
  show ({ E with
    payments := E.payments.map fun p =>
      if p.stripe_payment_intent_id == I then
        { p with status := st, amount := amt, currency := cur
                 booking_id := p.booking_id.orElse
                   (fun _ => lookupBookingByIntent E.bookings I) }
      else p
    nextPaymentId := E.nextPaymentId } : DB) = E
  rw [hmap]

/-- C3: handling the same payment event twice (same intent id, amount,
currency and kind) is idempotent.  The second handling returns exactly the
same store as the first (so in particular an already non-null `booking_id` is
not overwritten), after the event there is exactly one Payment row for the
intent id — given the unique key held before — and that row carries exactly
the event's status, amount and currency. -/
theorem c3_event_replay_idempotent (db : DB) (I : String) (amt : ℚ) (cur : String)
    (st : PStatus)
    (huniq : (db.payments.filter
      (fun p => p.stripe_payment_intent_id == I)).length ≤ 1) :
    handlePaymentEvent (handlePaymentEvent db I amt cur st) I amt cur st =
      handlePaymentEvent db I amt cur st ∧
    ((handlePaymentEvent db I amt cur st).payments.filter
      (fun p => p.stripe_payment_intent_id == I)).length = 1 ∧
    ∀ p ∈ (handlePaymentEvent db I amt cur st).payments,
      p.stripe_payment_intent_id = I →
      p.status = st ∧ p.amount = amt ∧ p.currency = cur := by
  refine ⟨?_, ?_, ?_⟩
  · have hany : (handlePaymentEvent db I amt cur st).payments.any
        (fun p => p.stripe_payment_intent_id == I) = true :=
      upsertPaymentRow_any db.payments
        (lookupBookingByIntent db.bookings I) db.nextPaymentId I amt cur st
    have hfix : ∀ p ∈ (handlePaymentEvent db I amt cur st).payments,
        p.stripe_payment_intent_id = I →
        p.status = st ∧ p.amount = amt ∧ p.currency = cur ∧
        (p.booking_id.orElse fun _ =>
          lookupBookingByIntent (handlePaymentEvent db I amt cur st).bookings I) =
          p.booking_id :=
      upsertPaymentRow_fields db.payments
        (lookupBookingByIntent db.bookings I) db.nextPaymentId I amt cur st
    exact handlePaymentEvent_fixed _ I amt cur st hany hfix
  · exact upsertPaymentRow_count db.payments
      (lookupBookingByIntent db.bookings I) db.nextPaymentId I amt cur st huniq
  · intro p hp hpI
    obtain ⟨h1, h2, h3, _⟩ := upsertPaymentRow_fields db.payments
      (lookupBookingByIntent db.bookings I) db.nextPaymentId I amt cur st p hp hpI
    exact ⟨h1, h2, h3⟩

/-- Concrete store for the C3 witness: no payment row for `pi_3` yet. -/
def c3db : DB :=
  { locations := [], payments := [], unavailabilities := []
    bookings := [{ booking_id := 1, location_id := 1, user_id := 2, start_date := 3
                   end_date := 5, status := .confirmed, total_price := 0
                   stripe_payment_intent_id := some "pi_3" }]
    nextBookingId := 2, nextPaymentId := 1 }

/-- C3 witness: replaying `payment_intent.succeeded` for `pi_3` at `c3db`
returns the very store of the first handling, which holds exactly one row for
`pi_3` with the event's values. -/
theorem c3_event_replay_idempotent_witness :
    handlePaymentEvent (handlePaymentEvent c3db "pi_3" 0 "eur" .succeeded)
        "pi_3" 0 "eur" .succeeded =
      handlePaymentEvent c3db "pi_3" 0 "eur" .succeeded ∧
    ((handlePaymentEvent c3db "pi_3" 0 "eur" .succeeded).payments.filter
      (fun p => p.stripe_payment_intent_id == "pi_3")).length = 1 := by
  have h := c3_event_replay_idempotent c3db "pi_3" 0 "eur" .succeeded (by decide)
  exact ⟨h.1, h.2.1⟩

/-! ### C2 — linkage between bookings and payment events -/

/-- Inversion of a successful `POST /bookings` that carries a payment intent:
the new booking id is the auto-increment counter, no Payments row for the
intent existed (otherwise the plain INSERT would have failed), and the
resulting store appends exactly one booking row and one already-linked
Payment row. -/
theorem createBooking_ok_intent (db : DB) (req : CreateReq) (today : Nat)
    (I : String) (bid : Nat) (tp : ℚ) (n : Nat)
    (hI : req.stripe_payment_intent_id = some I)
    (hok : (createBooking db req today).1 = .created bid tp n) :
    bid = db.nextBookingId ∧
    (db.payments.any fun p => p.stripe_payment_intent_id == I) = false ∧
    (∃ loc, validateAndPrice db.locations req today = .ok (loc, tp, n)) ∧
    hasUnavailConflict db.unavailabilities req.location_id req.start_date
      req.end_date = false ∧
    createBooking db req today =
      (.created db.nextBookingId tp n,
       { db with
         bookings := db.bookings ++
           [{ booking_id := db.nextBookingId
              location_id := req.location_id, user_id := req.user_id
              start_date := req.start_date, end_date := req.end_date
              status := .confirmed, total_price := tp
              stripe_payment_intent_id := some I }]
         payments := db.payments ++
           [{ payment_id := db.nextPaymentId
              booking_id := some db.nextBookingId, stripe_payment_intent_id := I
              amount := tp, currency := "eur", status := .succeeded }]
         nextBookingId := db.nextBookingId + 1
         nextPaymentId := db.nextPaymentId + 1 }) := by
  cases hv : validateAndPrice db.locations req today with
  | error e => simp [createBooking, hv] at hok
  | ok val =>
    obtain ⟨loc, tp0, n0⟩ := val
    cases hcf : hasUnavailConflict db.unavailabilities req.location_id
        req.start_date req.end_date with
    | true => simp [createBooking, hv, hcf] at hok
    | false =>
      cases hpay : db.payments.any fun p => p.stripe_payment_intent_id == I with
      | true => simp [createBooking, hv, hcf, hI, hpay] at hok
      | false =>
        have hok' := hok
        simp only [createBooking, hv, hcf, hI, hpay, Bool.false_eq_true, if_false,
          CreateRes.created.injEq] at hok'
        obtain ⟨h1, h2, h3⟩ := hok'
        subst h1
        subst h2
        subst h3
        refine ⟨rfl, ?_, ⟨loc, ?_⟩, ?_, by simp [createBooking, hv, hcf, hI, hpay]⟩ <;> rfl

/-- C2 (amended behaviour), both arrival orders for one intent id.  Booking
first: `POST /bookings` itself inserts an already-linked Payment row, and the
later `payment_intent.succeeded` upsert keeps the non-null `booking_id`, so
exactly one row exists for the intent, linked to the booking, with status
`succeeded`.  Event first (no booking references the intent yet): the webhook
creates the row with `booking_id = null`, and the later `POST /bookings`
carrying the same intent does *not* link it — its plain Payments INSERT hits
the unique intent key, the whole transaction is rolled back, and the booking
creation fails, leaving the store as the webhook left it. -/
theorem c2_linkage_orders (db : DB) (req : CreateReq) (today : Nat) (I : String)
    (amt : ℚ) (cur : String) (bid : Nat) (tp : ℚ) (n : Nat)
    (hI : req.stripe_payment_intent_id = some I)
    (hok : (createBooking db req today).1 = .created bid tp n)
    (hNoBk : lookupBookingByIntent db.bookings I = none) :
    (((handleIntentSucceeded (createBooking db req today).2 I amt cur).payments.filter
        (fun p => p.stripe_payment_intent_id == I)).length = 1 ∧
     ∀ p ∈ (handleIntentSucceeded (createBooking db req today).2 I amt cur).payments.filter
        (fun p => p.stripe_payment_intent_id == I),
       p.booking_id = some bid ∧ p.status = .succeeded) ∧
    ((handleIntentSucceeded db I amt cur).payments =
       db.payments ++ [{ payment_id := db.nextPaymentId, booking_id := none
                         stripe_payment_intent_id := I, amount := amt
                         currency := cur, status := .succeeded }] ∧
     (createBooking (handleIntentSucceeded db I amt cur) req today).1 =
       .failed .paymentInsertError ∧
     (createBooking (handleIntentSucceeded db I amt cur) req today).2 =
       handleIntentSucceeded db I amt cur) := by
  obtain ⟨hbid, hpay, ⟨loc, hv⟩, hcf, hrun⟩ :=
    createBooking_ok_intent db req today I bid tp n hI hok
  subst hbid
  have hW : handleIntentSucceeded db I amt cur =
      { db with
        payments := db.payments ++
          [{ payment_id := db.nextPaymentId, booking_id := none
             stripe_payment_intent_id := I, amount := amt
             currency := cur, status := .succeeded }]
        nextPaymentId := db.nextPaymentId + 1 } := by
    show ({ db with
      payments := (upsertPaymentRow db.payments (lookupBookingByIntent db.bookings I)
        db.nextPaymentId I amt cur .succeeded).1
      nextPaymentId := (upsertPaymentRow db.payments
        (lookupBookingByIntent db.bookings I) db.nextPaymentId I amt cur .succeeded).2 } :
        DB) = _
    rw [hNoBk]
    unfold upsertPaymentRow
    rw [if_neg (by simp [hpay])]
  have hL : (handleIntentSucceeded db I amt cur).locations = db.locations := rfl
  have hU : (handleIntentSucceeded db I amt cur).unavailabilities =
      db.unavailabilities := rfl
  have hP : (handleIntentSucceeded db I amt cur).payments =
      db.payments ++
        [{ payment_id := db.nextPaymentId, booking_id := none
           stripe_payment_intent_id := I, amount := amt
           currency := cur, status := .succeeded }] := by
    rw [hW]
  have hdup : ((handleIntentSucceeded db I amt cur).payments.any
      fun p => p.stripe_payment_intent_id == I) = true := by
    rw [hP, List.any_append]
    simp
  refine ⟨⟨?_, ?_⟩, hP, ?_, ?_⟩
  · rw [hrun]
    simp only [handleIntentSucceeded, handlePaymentEvent]
    refine upsertPaymentRow_count _ _ _ _ _ _ _ ?_
    rw [List.filter_append, List.filter_eq_nil_iff.mpr (List.any_eq_false.mp hpay)]
    simp
  · rw [hrun]
    intro p hp
    rw [List.mem_filter] at hp
    obtain ⟨hpmem, hpI⟩ := hp
    simp only [handleIntentSucceeded, handlePaymentEvent] at hpmem
    rw [upsertPaymentRow_of_any _ _ _ _ _ _ _
      (by rw [List.any_append]; simp)] at hpmem
    obtain ⟨q, hq, rfl⟩ := List.mem_map.mp hpmem
    rcases List.mem_append.mp hq with hq1 | hq2
    · exfalso
      have hqI := List.any_eq_false.mp hpay q hq1
      rw [if_neg hqI] at hpI
      exact hqI hpI
    · have hq2' : q = { payment_id := db.nextPaymentId
                        booking_id := some db.nextBookingId
                        stripe_payment_intent_id := I
                        amount := tp, currency := "eur", status := .succeeded } := by
        simpa using hq2
      subst hq2'
      constructor
      · simp [Option.orElse]
      · simp
  · simp [createBooking, hL, hv, hU, hcf, hI, hdup]
  · simp [createBooking, hL, hv, hU, hcf, hI, hdup]

/-- Store for the C2 scenario: one location, no bookings, no payments. -/
def c2db : DB :=
  { locations := [{ location_id := 1, owner_id := 7, price_per_night := 0 }]
    bookings := [], payments := [], unavailabilities := []
    nextBookingId := 1, nextPaymentId := 1 }

/-- A booking request for location 1 carrying payment intent `pi_2`. -/
def c2req : CreateReq :=
  { location_id := 1, start_date := 10, end_date := 12, total_price := none
    stripe_payment_intent_id := some "pi_2", service_fee := 0, user_id := 3 }

/-- C2 counterexample: the claim is false on the code in the event-first
order.  The `payment_intent.succeeded` webhook for `pi_2` creates the Payment
row with `booking_id = null`; a later `POST /bookings` carrying the same
intent does not link that row — it fails (the plain Payments INSERT violates
the unique intent key and the transaction is rolled back) and leaves the
store exactly as the webhook left it, the row still unlinked. -/
theorem c2_webhook_first_not_linked :
    (handleIntentSucceeded c2db "pi_2" 0 "eur").payments =
      [{ payment_id := 1, booking_id := none, stripe_payment_intent_id := "pi_2"
         amount := 0, currency := "eur", status := .succeeded }] ∧
    (createBooking (handleIntentSucceeded c2db "pi_2" 0 "eur") c2req 10).1 =
      .failed .paymentInsertError ∧
    (createBooking (handleIntentSucceeded c2db "pi_2" 0 "eur") c2req 10).2 =
      handleIntentSucceeded c2db "pi_2" 0 "eur" := by
  refine ⟨?_, ?_, ?_⟩ <;>
    simp [handleIntentSucceeded, handlePaymentEvent, upsertPaymentRow,
      lookupBookingByIntent, createBooking, validateAndPrice, hasUnavailConflict,
      c2db, c2req]

/-- C2 witness for the amended theorem: at the concrete store `c2db` and
request `c2req` (intent `pi_2`), the booking-first order ends with exactly
one Payment row for `pi_2`, and the event-first order appends the unlinked
row after which the booking creation fails without changing the store. -/
theorem c2_linkage_orders_witness :
    ((handleIntentSucceeded (createBooking c2db c2req 10).2 "pi_2" 0 "eur").payments.filter
      (fun p => p.stripe_payment_intent_id == "pi_2")).length = 1 ∧
    (handleIntentSucceeded c2db "pi_2" 0 "eur").payments =
      c2db.payments ++ [{ payment_id := c2db.nextPaymentId, booking_id := none
                          stripe_payment_intent_id := "pi_2", amount := 0
                          currency := "eur", status := .succeeded }] ∧
    (createBooking (handleIntentSucceeded c2db "pi_2" 0 "eur") c2req 10).1 =
      .failed .paymentInsertError := by
  have h := c2_linkage_orders c2db c2req 10 "pi_2" 0 "eur" 1 0 2 rfl
    (by simp [createBooking, validateAndPrice, hasUnavailConflict, c2db, c2req]) rfl
  exact ⟨h.1.1, h.2.1, h.2.2.1⟩

/-! ### C6 / C7 — cancellation -/

/-- Updating a booking's status commutes with looking the booking up by id. -/
theorem findBooking_setBookingStatus (bs : List Booking) (bid : Nat) (st : BStatus) :
    findBooking (setBookingStatus bs bid st) bid =
      (findBooking bs bid).map fun b => { b with status := st } := by
  induction bs with
  | nil => rfl
  | cons hd tl ih =>
    by_cases h : hd.booking_id = bid
    · simp [findBooking, setBookingStatus, List.find?_cons, h]
    · simpa [findBooking, setBookingStatus, List.find?_cons, h] using ih

/-- A cancel request against a booking already in status `cancelled` returns
the already-finalized error, changes nothing and calls no gateway. -/
theorem cancel_of_cancelled (db1 : DB) (bid uid2 : Nat)
    (g2 : String → Except String Unit) (b : Booking)
    (hb1 : findBooking db1.bookings bid = some b) (hst : b.status = .cancelled) :
    cancelBooking db1 bid uid2 g2 = (.alreadyFinalized .cancelled, db1, []) := by
  unfold cancelBooking
  rw [hb1]
  simp [hst]

/-- An accepted cancellation always stores the conditional status update:
whenever `PATCH /:id/cancel` returns the success result, the bookings table of
the resulting store is the old table with the booking's status set to
`cancelled`. -/
theorem cancelBooking_ok_bookings (db : DB) (bid uid : Nat)
    (g : String → Except String Unit) (r : RefundInfo) (db1 : DB)
    (calls : List String)
    (hcc : cancelBooking db bid uid g = (.cancelledOk r, db1, calls)) :
    db1.bookings = setBookingStatus db.bookings bid .cancelled := by
  unfold cancelBooking at hcc
  repeat' split at hcc
  all_goals injection hcc with h1 h23
  all_goals injection h23 with h2 h3
  all_goals first
    | (subst h2; rfl)
    | simp at h1

/-- C6: `PATCH /:id/cancel` on a booking whose status is already `completed`
or `cancelled` returns the already-finalized error, leaves the whole store
(bookings and payments) unchanged and never invokes the refund gateway; in
particular a second cancel following a successful cancel — whoever requests
it and whatever the gateway then does — returns the already-finalized error
with no state change and no refund call. -/
theorem c6_cancel_already_finalized (db : DB) (bid uid uid2 : Nat)
    (g g2 : String → Except String Unit) (b : Booking)
    (hb : findBooking db.bookings bid = some b) :
    ((b.status = .completed ∨ b.status = .cancelled) →
      cancelBooking db bid uid g = (.alreadyFinalized b.status, db, [])) ∧
    (∀ r db1 calls, cancelBooking db bid uid g = (.cancelledOk r, db1, calls) →
      cancelBooking db1 bid uid2 g2 = (.alreadyFinalized .cancelled, db1, [])) := by
  constructor
  · intro hfin
    unfold cancelBooking
    rw [hb]
    rcases hfin with h | h <;> simp [h]
  · intro r db1 calls hcc
    have hbk : db1.bookings = setBookingStatus db.bookings bid .cancelled :=
      cancelBooking_ok_bookings db bid uid g r db1 calls hcc
    have hb1 : findBooking db1.bookings bid = some { b with status := .cancelled } := by
      rw [hbk, findBooking_setBookingStatus, hb, Option.map_some']
    exact cancel_of_cancelled db1 bid uid2 g2 _ hb1 rfl

/-- C7: when the cancel is accepted for a `confirmed` booking with a payment
intent and the gateway refund call fails, the cancellation stands: the result
reports the refund as failed with the gateway's reason, the booking's stored
status is `cancelled`, and the Payments table is untouched (a linked Payment
that was `succeeded` stays `succeeded` — it is set to `refunded` only on a
successful gateway call). -/
theorem c7_refund_failure_keeps_cancellation (db : DB) (bid uid : Nat) (b : Booking)
    (I reason : String) (g : String → Except String Unit)
    (hb : findBooking db.bookings bid = some b)
    (hst : b.status = .confirmed)
    (hauth : (b.user_id == uid || isOwnerOf db.locations b.location_id uid) = true)
    (hI : b.stripe_payment_intent_id = some I)
    (hg : g I = .error reason) :
    cancelBooking db bid uid g =
      (.cancelledOk (.refundFailed reason),
       { db with bookings := setBookingStatus db.bookings bid .cancelled }, [I]) ∧
    findBooking (cancelBooking db bid uid g).2.1.bookings bid =
      some { b with status := .cancelled } ∧
    (cancelBooking db bid uid g).2.1.payments = db.payments := by
  have h1 : cancelBooking db bid uid g =
      (.cancelledOk (.refundFailed reason),
       { db with bookings := setBookingStatus db.bookings bid .cancelled }, [I]) := by
    unfold cancelBooking
    rw [hb]
    simp [hst, hauth, hI, hg]
  refine ⟨h1, ?_, ?_⟩
  · rw [h1]
    show findBooking (setBookingStatus db.bookings bid .cancelled) bid = _
    rw [findBooking_setBookingStatus, hb]
    rfl
  · rw [h1]

/-- C6 witness data: booking 1 of user 2, already cancelled. -/
def c6b1 : Booking :=
  { booking_id := 1, location_id := 1, user_id := 2, start_date := 3
    end_date := 5, status := .cancelled, total_price := 0
    stripe_payment_intent_id := none }

/-- C6 witness data: booking 2 of user 4, confirmed, with intent `pi_6`. -/
def c6b2 : Booking :=
  { booking_id := 2, location_id := 1, user_id := 4, start_date := 6
    end_date := 8, status := .confirmed, total_price := 0
    stripe_payment_intent_id := some "pi_6" }

/-- Concrete store for the C6 witness. -/
def c6db : DB :=
  { locations := [{ location_id := 1, owner_id := 7, price_per_night := 0 }]
    bookings := [c6b1, c6b2]
    payments := [], unavailabilities := [], nextBookingId := 3, nextPaymentId := 1 }

/-- C6 witness: at the concrete store `c6db`, cancelling the already-cancelled
booking 1 returns the already-finalized error unchanged, and cancelling the
confirmed booking 2 and then cancelling it again returns the
already-finalized error on the second call. -/
theorem c6_cancel_already_finalized_witness :
    cancelBooking c6db 1 2 (fun _ => .ok ()) = (.alreadyFinalized .cancelled, c6db, []) ∧
    cancelBooking (cancelBooking c6db 2 4 (fun _ => .ok ())).2.1 2 4 (fun _ => .ok ()) =
      (.alreadyFinalized .cancelled, (cancelBooking c6db 2 4 (fun _ => .ok ())).2.1, []) := by
  constructor
  · exact (c6_cancel_already_finalized c6db 1 2 2 (fun _ => .ok ()) (fun _ => .ok ()) c6b1
      rfl).1 (Or.inr rfl)
  · exact (c6_cancel_already_finalized c6db 2 4 4 (fun _ => .ok ()) (fun _ => .ok ()) c6b2
      rfl).2 .refundOk (cancelBooking c6db 2 4 (fun _ => .ok ())).2.1 ["pi_6"] rfl

/-- C7 witness data: confirmed booking 1 of user 2 with intent `pi_7`. -/
def c7b : Booking :=
  { booking_id := 1, location_id := 1, user_id := 2, start_date := 3
    end_date := 5, status := .confirmed, total_price := 0
    stripe_payment_intent_id := some "pi_7" }

/-- Concrete store for the C7 witness: `c7b` plus a succeeded Payment row
linked to it. -/
def c7db : DB :=
  { locations := [{ location_id := 1, owner_id := 7, price_per_night := 0 }]
    bookings := [c7b]
    payments := [{ payment_id := 1, booking_id := some 1
                   stripe_payment_intent_id := "pi_7", amount := 0
                   currency := "eur", status := .succeeded }]
    unavailabilities := [], nextBookingId := 2, nextPaymentId := 2 }

/-- C7 witness: at `c7db`, with a gateway that rejects the refund with reason
`declined`, the cancel succeeds, reports the failed refund, and leaves the
Payments table (with its `succeeded` row) unchanged. -/
theorem c7_refund_failure_keeps_cancellation_witness :
    cancelBooking c7db 1 2 (fun _ => .error "declined") =
      (.cancelledOk (.refundFailed "declined"),
       { c7db with bookings := setBookingStatus c7db.bookings 1 .cancelled },
       ["pi_7"]) ∧
    (cancelBooking c7db 1 2 (fun _ => .error "declined")).2.1.payments = c7db.payments := by
  have h := c7_refund_failure_keeps_cancellation c7db 1 2 c7b
    "pi_7" "declined" (fun _ => .error "declined")
    rfl rfl rfl rfl rfl
  exact ⟨h.1, h.2.2⟩

/-! ### C8 / C9 — the status sweeper -/

/-- Folding the per-row completed-updates over a list of ids updates exactly
the rows whose id is in the list. -/
theorem applyCompletedUpdates_eq_map (bs : List Booking) (ids : List Nat) :
    applyCompletedUpdates bs ids =
      bs.map fun b =>
        if b.booking_id ∈ ids then { b with status := .completed } else b := by
  induction ids generalizing bs with
  | nil => simp [applyCompletedUpdates]
  | cons i t ih =>
    have hstep : applyCompletedUpdates bs (i :: t) =
        applyCompletedUpdates (setBookingStatus bs i .completed) t := rfl
    rw [hstep, ih, setBookingStatus, List.map_map]
    refine List.map_congr_left fun b _ => ?_
    by_cases hbi : b.booking_id = i
    · simp [Function.comp, hbi]
    · simp [Function.comp, hbi]

/-- With unique booking ids, a booking's id is selected by the sweeper's
query exactly when the booking is confirmed and ended before today. -/
theorem mem_eligibleIds_iff (bs : List Booking) (today : Nat)
    (hnd : (bs.map (·.booking_id)).Nodup) (b : Booking) (hmem : b ∈ bs) :
    b.booking_id ∈ eligibleIds bs today ↔
      b.status = .confirmed ∧ b.end_date < today := by
  constructor
  · intro hin
    obtain ⟨b', hb'mem, hb'id⟩ := List.mem_map.mp hin
    have hb'bs : b' ∈ bs := List.mem_of_mem_filter hb'mem
    have hcond := List.of_mem_filter hb'mem
    have hbb : b' = b := List.inj_on_of_nodup_map hnd hb'bs hmem hb'id
    subst hbb
    simp only [Bool.and_eq_true, decide_eq_true_eq, beq_iff_eq] at hcond
    exact ⟨hcond.2, hcond.1⟩
  · intro hc
    exact List.mem_map.mpr
      ⟨b, List.mem_filter.mpr ⟨hmem, by simp [hc.1, hc.2]⟩, rfl⟩

/-- C8: with unique booking ids, `updatePastBookingsToCompleted` transitions
to `completed` exactly the bookings that are `confirmed` with
`end_date < today` — a `cancelled`, `pending` or `completed` booking or one
with `end_date ≥ today` is untouched — and immediately re-running the sweep
returns the same store and a transition count of zero. -/
theorem c8_sweep_exact (db : DB) (today : Nat)
    (hnd : (db.bookings.map (·.booking_id)).Nodup) :
    (runStatusSweep db today).1.bookings =
      (db.bookings.map fun b =>
        if b.status = .confirmed ∧ b.end_date < today
        then { b with status := .completed } else b) ∧
    runStatusSweep (runStatusSweep db today).1 today = ((runStatusSweep db today).1, 0) := by
  have hmap : (runStatusSweep db today).1.bookings =
      db.bookings.map fun b =>
        if b.status = .confirmed ∧ b.end_date < today
        then { b with status := .completed } else b := by
    show applyCompletedUpdates db.bookings (eligibleIds db.bookings today) = _
    rw [applyCompletedUpdates_eq_map]
    refine List.map_congr_left fun b hb => ?_
    by_cases hc : b.status = .confirmed ∧ b.end_date < today
    · rw [if_pos ((mem_eligibleIds_iff db.bookings today hnd b hb).mpr hc), if_pos hc]
    · rw [if_neg (fun hin => hc ((mem_eligibleIds_iff db.bookings today hnd b hb).mp hin)),
        if_neg hc]
  refine ⟨hmap, ?_⟩
  have helig : eligibleIds (runStatusSweep db today).1.bookings today = [] := by
    rw [hmap]
    unfold eligibleIds
    rw [List.filter_map]
    have hnone : List.filter ((fun b => decide (b.end_date < today) &&
        (b.status == BStatus.confirmed)) ∘ fun b =>
          if b.status = .confirmed ∧ b.end_date < today
          then { b with status := .completed } else b) db.bookings = [] := by
      rw [List.filter_eq_nil_iff]
      intro b _
      by_cases hc : b.status = .confirmed ∧ b.end_date < today
      · simp [Function.comp, hc]
      · simp only [Function.comp, if_neg hc]
        by_cases h1 : b.status = .confirmed
        · have h2 : ¬ b.end_date < today := fun h2 => hc ⟨h1, h2⟩
          simp [h1, h2]
        · simp [h1]
    rw [hnone]
    rfl
  show ({ (runStatusSweep db today).1 with
      bookings := applyCompletedUpdates (runStatusSweep db today).1.bookings
        (eligibleIds (runStatusSweep db today).1.bookings today) },
    (eligibleIds (runStatusSweep db today).1.bookings today).length) =
    ((runStatusSweep db today).1, 0)
  rw [helig]
  rfl

/-- C8 witness data: a confirmed booking that ended on day 5. -/
def c8db : DB :=
  { locations := [], payments := [], unavailabilities := []
    bookings := [{ booking_id := 1, location_id := 1, user_id := 2, start_date := 3
                   end_date := 5, status := .confirmed, total_price := 0
                   stripe_payment_intent_id := none },
                 { booking_id := 2, location_id := 1, user_id := 4, start_date := 3
                   end_date := 20, status := .confirmed, total_price := 0
                   stripe_payment_intent_id := none }]
    nextBookingId := 3, nextPaymentId := 1 }

/-- C8 witness: sweeping `c8db` on day 10 completes exactly the ended
confirmed booking, and re-running the sweep changes nothing and reports zero
transitions. -/
theorem c8_sweep_exact_witness :
    (runStatusSweep c8db 10).1.bookings =
      (c8db.bookings.map fun b =>
        if b.status = .confirmed ∧ b.end_date < 10
        then { b with status := .completed } else b) ∧
    runStatusSweep (runStatusSweep c8db 10).1 10 = ((runStatusSweep c8db 10).1, 0) :=
  c8_sweep_exact c8db 10 (by decide)

/-- C9 (amended behaviour): the sweeper's update loop stops at the first row
whose update throws.  The rows before the first failing id are updated, the
failing row and every row after it are left exactly as they were, the count
is the number of successfully processed rows, and the loop is aborted (the
error being caught by the function-level handler, so the sweep returns
normally) precisely when some selected id fails. -/
theorem c9_sweep_stops_at_first_failure (db : DB) (today : Nat) (fails : Nat → Bool) :
    runStatusSweepFallible db today fails =
      ({ db with bookings := (applyCompletedUpdates db.bookings
          ((eligibleIds db.bookings today).takeWhile (fun i => !fails i))) },
       ((eligibleIds db.bookings today).takeWhile (fun i => !fails i)).length,
       (eligibleIds db.bookings today).any fails) := by
  suffices hloop : ∀ (ids : List Nat) (bs : List Booking) (count : Nat),
      sweepLoop bs ids fails count =
        (applyCompletedUpdates bs (ids.takeWhile (fun i => !fails i)),
         count + (ids.takeWhile (fun i => !fails i)).length,
         ids.any fails) by
    show ({ db with bookings := (sweepLoop db.bookings
        (eligibleIds db.bookings today) fails 0).1 },
      (sweepLoop db.bookings (eligibleIds db.bookings today) fails 0).2.1,
      (sweepLoop db.bookings (eligibleIds db.bookings today) fails 0).2.2) = _
    rw [hloop]
    simp
  intro ids
  induction ids with
  | nil => intro bs count; simp [sweepLoop, applyCompletedUpdates]
  | cons i t ih =>
    intro bs count
    by_cases hi : fails i
    · simp [sweepLoop, hi, applyCompletedUpdates]
    · have hstep : sweepLoop bs (i :: t) fails count =
          sweepLoop (setBookingStatus bs i .completed) t fails (count + 1) := by
        simp [sweepLoop, hi]
      rw [hstep, ih]
      have htw : (i :: t).takeWhile (fun j => !fails j) =
          i :: t.takeWhile (fun j => !fails j) := by
        simp [List.takeWhile_cons, hi]
      rw [htw]
      have happ : applyCompletedUpdates bs (i :: t.takeWhile fun j => !fails j) =
          applyCompletedUpdates (setBookingStatus bs i .completed)
            (t.takeWhile fun j => !fails j) := rfl
      rw [happ]
      simp [List.any_cons, hi]
      omega

/-! ### C10 — payment events write only the Payments table -/

/-- C10: both webhook branches of `POST /webhook/stripe` leave the `Bookings`
table (and every other table except `Payments`) untouched — in particular
every booking's status, dates, renter, total price and payment-intent
reference are exactly as before; only the Payments rows change. -/
theorem c10_webhook_touches_only_payments (db : DB) (I : String) (amt : ℚ)
    (cur : String) :
    (handleIntentSucceeded db I amt cur).bookings = db.bookings ∧
    (handleIntentSucceeded db I amt cur).locations = db.locations ∧
    (handleIntentSucceeded db I amt cur).unavailabilities = db.unavailabilities ∧
    (handleIntentFailed db I amt cur).bookings = db.bookings ∧
    (handleIntentFailed db I amt cur).locations = db.locations ∧
    (handleIntentFailed db I amt cur).unavailabilities = db.unavailabilities :=
  ⟨rfl, rfl, rfl, rfl, rfl, rfl⟩

end Camping
